import Mathlib

/-!
Shallow embedding of `custom_components/enocean_cs/switch.py` (EnOcean switch
adapter): telegram encoding (`turn_on` / `turn_off`), inbound telegram
interpretation (`value_changed`), unique-id generation and the one-shot
identity migration, together with proofs of the specified properties.
-/

namespace EnoceanCS

/-- Modelled from the spec: `SWITCH_ALL_CHANNELS` comes from the repository's
`const.py`, which is not among the reviewed sources; the spec fixes the
sentinel "all channels" value at 32. -/
def SWITCH_ALL_CHANNELS : Nat := 32

/-- Modelled from the spec: `combine_hex` from the external `enocean.utils`
library folds an ordered byte sequence into one integer big-endian: each byte
contributes `byte << (8 * position_from_end)`, summed. -/
def combine_hex (data : List Nat) : Nat :=
  match data with
  | [] => 0
  | b :: rest => b <<< (8 * rest.length) + combine_hex rest

/-- `generate_unique_id(dev_id, channel)` returns
`f"{combine_hex(dev_id)}-{channel}"`. -/
def generate_unique_id (dev_id : List Nat) (channel : Nat) : String :=
  toString (combine_hex dev_id) ++ "-" ++ toString channel

/-- The numeric value of `RORG.VLD` from `enocean.protocol.constants`
(the VLD telegram class discriminator, 0xD2). -/
def RORG_VLD : Nat := 0xD2

/-- The named numeric fields passed to `RadioPacket.create` by
`turn_on` / `turn_off`.  The source keyword `IO` is embedded as the field
`IO_out` (Lean reserves the name); all other field names follow the source. -/
structure RadioPacketFields where
  rorg : Nat
  rorg_func : Nat
  rorg_type : Nat
  sender : List Nat
  destination : List Nat
  command : Nat
  DV : Nat
  IO_out : Nat
  OV : Nat
  deriving Repr, DecidableEq

/-- The mutable attributes of an `EnOceanSwitch` instance, as set up by
`__init__` and mutated by `turn_on` / `turn_off` / `value_changed`. -/
structure EnOceanSwitch where
  _attr_is_on : Bool
  dev_id : List Nat
  sender_id : List Nat
  channel : Nat
  _attr_unique_id : String
  _attr_name : String
  deriving Repr, DecidableEq

/-- `EnOceanSwitch.__init__(dev_id, dev_name, channel, sender_id)`; the class
attribute `_attr_is_on` starts out `False`. -/
def EnOceanSwitch.init (dev_id : List Nat) (dev_name : String) (channel : Nat)
    (sender_id : List Nat) : EnOceanSwitch :=
  { _attr_is_on := false
    dev_id := dev_id
    sender_id := sender_id
    channel := channel
    _attr_unique_id := generate_unique_id dev_id channel
    _attr_name := dev_name }

/-- `EnOceanSwitch.turn_on`: builds the VLD change-actuator packet
(`command=1, DV=0, IO=self.channel, OV=0x64`), sends it, and sets
`self._attr_is_on = True`.  The returned pair is (new instance state,
dispatched packet). -/
def EnOceanSwitch.turn_on (s : EnOceanSwitch) : EnOceanSwitch × RadioPacketFields :=
  let packet : RadioPacketFields :=
    { rorg := RORG_VLD
      rorg_func := 0x01
      rorg_type := 0x01
      sender := s.sender_id
      destination := s.dev_id
      command := 1
      DV := 0
      IO_out := s.channel
      OV := 0x64 }
  ({ s with _attr_is_on := true }, packet)

/-- `EnOceanSwitch.turn_off`: same packet with `OV=0x0`, then
`self._attr_is_on = False`. -/
def EnOceanSwitch.turn_off (s : EnOceanSwitch) : EnOceanSwitch × RadioPacketFields :=
  let packet : RadioPacketFields :=
    { rorg := RORG_VLD
      rorg_func := 0x01
      rorg_type := 0x01
      sender := s.sender_id
      destination := s.dev_id
      command := 1
      DV := 0
      IO_out := s.channel
      OV := 0x0 }
  ({ s with _attr_is_on := false }, packet)

/-- An inbound packet as seen by `value_changed`: its first data byte
`packet.data[0]`, and the raw values the external parser exposes as
`packet.parsed[...]["raw_value"]` — `DT`, `MR`, `DIV` under EEP (0x12, 0x01)
and `CMD`, `IO`, `OV` under EEP (0x01, 0x01). -/
structure InPacket where
  data_0 : Nat
  DT_raw_value : Nat
  MR_raw_value : Nat
  DIV_raw_value : Nat
  CMD_raw_value : Nat
  IO_raw_value : Nat
  OV_raw_value : Nat
  deriving Repr, DecidableEq

/-- `watts = raw_val / (10**divisor)` computed in `value_changed`, as an exact
rational. -/
def watts (p : InPacket) : ℚ :=
  (p.MR_raw_value : ℚ) / 10 ^ p.DIV_raw_value

/-- `EnOceanSwitch.value_changed(packet)`: branch on `packet.data[0]`; for
0xA5 parse EEP (0x12, 0x01) and set the state on iff `DT == 1` and
`watts > 1`; for 0xD2 parse EEP (0x01, 0x01) and, when `CMD == 4` and the
reported channel matches (or the configured channel is
`SWITCH_ALL_CHANNELS`), set the state to `OV > 0`.  `some b` models
"assign `_attr_is_on = b` and `schedule_update_ha_state()`"; `none` models
the fall-through with no update. -/
def value_changed (channel : Nat) (p : InPacket) : Option Bool :=
  if p.data_0 = 0xA5 then
    if p.DT_raw_value = 1 then
      if 1 < watts p then some true else none
    else none
  else if p.data_0 = 0xD2 then
    if p.CMD_raw_value = 4 then
      if p.IO_raw_value = channel ∨ channel = SWITCH_ALL_CHANNELS then
        some (decide (0 < p.OV_raw_value))
      else none
    else none
  else none

/-- Modelled from the spec: the host entity registry (an external collaborator,
spec §6) as a finite association of entries `(entity_id, unique_id)`. -/
abbrev Registry := List (String × String)

/-- Modelled from the spec: `ent_reg.async_get_entity_id(platform, domain,
unique_id)` — looks up the entity currently registered under a unique id. -/
def async_get_entity_id (reg : Registry) (unique_id : String) : Option String :=
  (reg.find? (fun e => e.2 == unique_id)).map Prod.fst

/-- Modelled from the spec: `ent_reg.async_update_entity(entity_id,
new_unique_id=...)` — renames the entity's unique id, raising `ValueError`
(here `Except.error ()`) when the new key already exists (spec §6: the
migration hook "must log-and-skip (not fail) if the new key already
exists"). -/
def async_update_entity (reg : Registry) (entity_id new_unique_id : String) :
    Except Unit Registry :=
  if reg.any (fun e => e.2 == new_unique_id) then Except.error ()
  else Except.ok (reg.map (fun e => if e.1 == entity_id then (e.1, new_unique_id) else e))

/-- `_migrate_to_new_unique_id(hass, dev_id, channel)`: look up the entity
under the old key `f"{combine_hex(dev_id)}"`; if present, rename it to
`generate_unique_id(dev_id, channel)`, logging and skipping on `ValueError`.
Returns the resulting registry. -/
def _migrate_to_new_unique_id (reg : Registry) (dev_id : List Nat) (channel : Nat) :
    Registry :=
  let old_unique_id := toString (combine_hex dev_id)
  match async_get_entity_id reg old_unique_id with
  | none => reg
  | some entity_id =>
    let new_unique_id := generate_unique_id dev_id channel
    match async_update_entity reg entity_id new_unique_id with
    | Except.error _ => reg
    | Except.ok reg2 => reg2

end EnoceanCS

namespace EnoceanCS

/-- C4: for every switch instance (hence every destination, sender, channel
and desired state), `turn_on` / `turn_off` build a VLD (func 0x01, type 0x01)
telegram with exactly `command = 1`, `DV = 0`, `IO = channel`, and `OV = 0x64`
when turning on, `OV = 0x00` when turning off. -/
theorem turn_on_off_encode_fields (s : EnOceanSwitch) :
    (s.turn_on.2.rorg = RORG_VLD ∧ s.turn_on.2.rorg_func = 0x01 ∧
      s.turn_on.2.rorg_type = 0x01 ∧ s.turn_on.2.sender = s.sender_id ∧
      s.turn_on.2.destination = s.dev_id ∧ s.turn_on.2.command = 1 ∧
      s.turn_on.2.DV = 0 ∧ s.turn_on.2.IO_out = s.channel ∧
      s.turn_on.2.OV = 0x64) ∧
    (s.turn_off.2.rorg = RORG_VLD ∧ s.turn_off.2.rorg_func = 0x01 ∧
      s.turn_off.2.rorg_type = 0x01 ∧ s.turn_off.2.sender = s.sender_id ∧
      s.turn_off.2.destination = s.dev_id ∧ s.turn_off.2.command = 1 ∧
      s.turn_off.2.DV = 0 ∧ s.turn_off.2.IO_out = s.channel ∧
      s.turn_off.2.OV = 0x00) :=
  ⟨⟨rfl, rfl, rfl, rfl, rfl, rfl, rfl, rfl, rfl⟩,
   ⟨rfl, rfl, rfl, rfl, rfl, rfl, rfl, rfl, rfl⟩⟩

/-- C8 counterexample: `turn_on` does change component state beyond the
dispatched telegram — on a concrete freshly initialized switch the instance
after `turn_on` differs from the instance before (its `_attr_is_on` flag was
mutated). -/
theorem turn_on_mutates_state :
    ((EnOceanSwitch.init [0x01, 0x02] "EnOcean Switch" 0 [0x03, 0x04]).turn_on).1 ≠
      EnOceanSwitch.init [0x01, 0x02] "EnOcean Switch" 0 [0x03, 0x04] := by
  decide

/-- C8 (amended): besides producing the dispatched telegram, `turn_on` /
`turn_off` change exactly one piece of component state — the `_attr_is_on`
flag (set optimistically to the commanded value); every other attribute is
unchanged. -/
theorem turn_on_off_only_touch_is_on (s : EnOceanSwitch) :
    s.turn_on.1 = { s with _attr_is_on := true } ∧
    s.turn_off.1 = { s with _attr_is_on := false } :=
  ⟨rfl, rfl⟩

/-- Normal form of `value_changed` on a 0xD2 telegram with `CMD = 4`. -/
lemma value_changed_d2_cmd4 (channel : Nat) (p : InPacket)
    (hd : p.data_0 = 0xD2) (hcmd : p.CMD_raw_value = 4) :
    value_changed channel p =
      if p.IO_raw_value = channel ∨ channel = SWITCH_ALL_CHANNELS then
        some (decide (0 < p.OV_raw_value))
      else none := by
  simp [value_changed, hd, hcmd]

/-- C1: on a 0xD2 telegram with `CMD = 4`, the interpreter emits the update
`isOn = (OV > 0)` iff the reported channel `IO` equals the configured channel
or the configured channel is `SWITCH_ALL_CHANNELS`; when `IO` differs from a
configured channel that is not `SWITCH_ALL_CHANNELS`, no update is emitted. -/
theorem value_changed_status_iff (channel : Nat) (p : InPacket)
    (hd : p.data_0 = 0xD2) (hcmd : p.CMD_raw_value = 4) :
    (value_changed channel p = some (decide (0 < p.OV_raw_value)) ↔
      (p.IO_raw_value = channel ∨ channel = SWITCH_ALL_CHANNELS)) ∧
    (p.IO_raw_value ≠ channel → channel ≠ SWITCH_ALL_CHANNELS →
      value_changed channel p = none) := by
  rw [value_changed_d2_cmd4 channel p hd hcmd]
  by_cases hm : p.IO_raw_value = channel ∨ channel = SWITCH_ALL_CHANNELS
  · rw [if_pos hm]
    exact ⟨⟨fun _ => hm, fun _ => rfl⟩,
      fun h1 h2 => absurd hm (by simp [h1, h2])⟩
  · rw [if_neg hm]
    exact ⟨⟨fun h => (Option.noConfusion h), fun h => absurd h hm⟩,
      fun _ _ => rfl⟩

/-- C1 witness: a status telegram with `CMD = 4`, `IO = 7`, `OV = 0x64`
decoded against configured channel 7. -/
theorem value_changed_status_iff_witness :
    value_changed 7 ⟨0xD2, 0, 0, 0, 4, 7, 0x64⟩ = some true := by
  have h := (value_changed_status_iff 7 ⟨0xD2, 0, 0, 0, 4, 7, 0x64⟩ rfl rfl).1.mpr
    (Or.inl rfl)
  simpa using h

/-- Normal form of `value_changed` on a 0xA5 telegram. -/
lemma value_changed_a5 (channel : Nat) (p : InPacket) (hd : p.data_0 = 0xA5) :
    value_changed channel p =
      if p.DT_raw_value = 1 then
        (if 1 < watts p then some true else none)
      else none := by
  simp [value_changed, hd]

/-- C2: on a 0xA5 telegram, the interpreter emits `isOn = true` iff `DT = 1`
and `MR / 10^DIV > 1`; when `DT ≠ 1` or the wattage is at most 1, no update
is emitted. -/
theorem value_changed_power_iff (channel : Nat) (p : InPacket)
    (hd : p.data_0 = 0xA5) :
    (value_changed channel p = some true ↔
      (p.DT_raw_value = 1 ∧ 1 < (p.MR_raw_value : ℚ) / 10 ^ p.DIV_raw_value)) ∧
    ((p.DT_raw_value ≠ 1 ∨ (p.MR_raw_value : ℚ) / 10 ^ p.DIV_raw_value ≤ 1) →
      value_changed channel p = none) := by
  rw [value_changed_a5 channel p hd]
  unfold watts
  constructor
  · constructor
    · intro h
      by_cases h1 : p.DT_raw_value = 1
      · rw [if_pos h1] at h
        by_cases h2 : 1 < (p.MR_raw_value : ℚ) / 10 ^ p.DIV_raw_value
        · exact ⟨h1, h2⟩
        · rw [if_neg h2] at h
          exact Option.noConfusion h
      · rw [if_neg h1] at h
        exact Option.noConfusion h
    · rintro ⟨h1, h2⟩
      rw [if_pos h1, if_pos h2]
  · rintro (h1 | h2)
    · rw [if_neg h1]
    · by_cases h1 : p.DT_raw_value = 1
      · rw [if_pos h1, if_neg (not_lt.mpr h2)]
      · rw [if_neg h1]

/-- C2 witness: `DT = 1, MR = 150, DIV = 1` (15 W) decoded on channel 0. -/
theorem value_changed_power_iff_witness :
    value_changed 0 ⟨0xA5, 1, 150, 1, 0, 0, 0⟩ = some true :=
  (value_changed_power_iff 0 ⟨0xA5, 1, 150, 1, 0, 0, 0⟩ rfl).1.mpr
    ⟨rfl, by norm_num⟩

/-- C5: a 0xA5 power telegram never produces `isOn = false`: the only
outcomes are `some true` or `none`. -/
theorem value_changed_power_never_off (channel : Nat) (p : InPacket)
    (hd : p.data_0 = 0xA5) :
    value_changed channel p ≠ some false := by
  rw [value_changed_a5 channel p hd]
  split
  · split
    · simp
    · simp
  · simp

/-- C5 witness: a concrete 0xA5 telegram never decodes to `some false`. -/
theorem value_changed_power_never_off_witness :
    value_changed 0 ⟨0xA5, 1, 150, 1, 0, 0, 0⟩ ≠ some false :=
  value_changed_power_never_off 0 ⟨0xA5, 1, 150, 1, 0, 0, 0⟩ rfl

/-- C6: an unrecognized discriminator, or a recognized one whose
sub-conditions fail, yields no update (and `value_changed` is a total
function: nothing is raised). -/
theorem value_changed_ignored (channel : Nat) (p : InPacket)
    (h : (p.data_0 ≠ 0xA5 ∧ p.data_0 ≠ 0xD2) ∨
      (p.data_0 = 0xA5 ∧ ¬(p.DT_raw_value = 1 ∧ 1 < watts p)) ∨
      (p.data_0 = 0xD2 ∧ ¬(p.CMD_raw_value = 4 ∧
        (p.IO_raw_value = channel ∨ channel = SWITCH_ALL_CHANNELS)))) :
    value_changed channel p = none := by
  rcases h with ⟨h1, h2⟩ | ⟨h1, h2⟩ | ⟨h1, h2⟩
  · simp [value_changed, h1, h2]
  · rw [value_changed_a5 channel p h1]
    by_cases hdt : p.DT_raw_value = 1
    · rw [if_pos hdt]
      rw [if_neg (fun hw => h2 ⟨hdt, hw⟩)]
    · rw [if_neg hdt]
  · simp only [value_changed, h1]
    norm_num
    intro hcmd hm
    exact absurd ⟨hcmd, hm⟩ h2

/-- C6 witness: a telegram with an unknown discriminator 0x00 is ignored. -/
theorem value_changed_ignored_witness :
    value_changed 0 ⟨0x00, 0, 0, 0, 0, 0, 0⟩ = none :=
  value_changed_ignored 0 ⟨0x00, 0, 0, 0, 0, 0, 0⟩
    (Or.inl ⟨by decide, by decide⟩)

/-- Modelled from the spec: the round-trip reinterpretation (spec §8) of an
outbound command telegram as an inbound actuator-status telegram with
`CMD = 4`, the same channel and the same `OV`. -/
def reinterpretAsStatus (pkt : RadioPacketFields) : InPacket :=
  { data_0 := pkt.rorg
    DT_raw_value := 0
    MR_raw_value := 0
    DIV_raw_value := 0
    CMD_raw_value := 4
    IO_raw_value := pkt.IO_out
    OV_raw_value := pkt.OV }

/-- C3: encoding a switch command for a channel in [0, 31] and reinterpreting
the produced telegram as an actuator-status telegram with `CMD = 4`, the same
channel and the produced `OV`, then decoding against that configured channel,
yields exactly `isOn = desiredOn`. -/
theorem encode_decode_roundtrip (dev_id sender_id : List Nat) (name : String)
    (channel : Nat) (_hch : channel ≤ 31) (desiredOn : Bool) :
    value_changed channel (reinterpretAsStatus
      ((if desiredOn
        then (EnOceanSwitch.init dev_id name channel sender_id).turn_on
        else (EnOceanSwitch.init dev_id name channel sender_id).turn_off).2)) =
      some desiredOn := by
  cases desiredOn <;>
    simp [value_changed, reinterpretAsStatus, EnOceanSwitch.turn_on,
      EnOceanSwitch.turn_off, EnOceanSwitch.init, RORG_VLD]

/-- C3 witness: the round-trip at channel 5, turning on. -/
theorem encode_decode_roundtrip_witness :
    value_changed 5 (reinterpretAsStatus
      ((EnOceanSwitch.init [0x01, 0x02] "sw" 5 [0x03, 0x04]).turn_on).2) =
      some true := by
  have h := encode_decode_roundtrip [0x01, 0x02] [0x03, 0x04] "sw" 5
    (by decide) true
  simpa using h

/-- The new unique id differs from the old one: it carries a `-channel`
suffix, so it is strictly longer. -/
lemma generate_unique_id_ne_old (dev_id : List Nat) (channel : Nat) :
    generate_unique_id dev_id channel ≠ toString (combine_hex dev_id) := by
  intro h
  have hl := congrArg String.length h
  simp only [generate_unique_id, String.length_append] at hl
  have h1 : ("-" : String).length = 1 := rfl
  rw [h1] at hl
  omega

/-- If the old key is not registered, migration is a no-op. -/
lemma migrate_of_old_absent (reg : Registry) (dev_id : List Nat) (channel : Nat)
    (h : async_get_entity_id reg (toString (combine_hex dev_id)) = none) :
    _migrate_to_new_unique_id reg dev_id channel = reg := by
  simp only [_migrate_to_new_unique_id, h]

/-- If the new key is already registered, migration logs and skips: the
registry is unchanged. -/
lemma migrate_of_conflict (reg : Registry) (dev_id : List Nat) (channel : Nat)
    (eid : String)
    (h : async_get_entity_id reg (toString (combine_hex dev_id)) = some eid)
    (hany : reg.any (fun x => x.2 == generate_unique_id dev_id channel) = true) :
    _migrate_to_new_unique_id reg dev_id channel = reg := by
  simp only [_migrate_to_new_unique_id, h, async_update_entity, hany, if_true]

/-- If the old key is registered and the new key is free, migration renames
the found entity's unique id. -/
lemma migrate_of_success (reg : Registry) (dev_id : List Nat) (channel : Nat)
    (eid : String)
    (h : async_get_entity_id reg (toString (combine_hex dev_id)) = some eid)
    (hany : reg.any (fun x => x.2 == generate_unique_id dev_id channel) = false) :
    _migrate_to_new_unique_id reg dev_id channel =
      reg.map (fun x =>
        if x.1 == eid then (x.1, generate_unique_id dev_id channel) else x) := by
  simp only [_migrate_to_new_unique_id, h, async_update_entity, hany]
  simp

/-- After renaming the entity found under key `u` to key `v` (absent from the
registry), a lookup for `v` finds exactly that entity. -/
lemma find?_map_rename (reg : Registry) (u v : String) (e : String × String)
    (hids : (reg.map Prod.fst).Nodup)
    (hfind : reg.find? (fun x => x.2 == u) = some e)
    (hall : ∀ x ∈ reg, x.2 ≠ v) :
    (reg.map (fun x => if x.1 == e.1 then (x.1, v) else x)).find?
      (fun x => x.2 == v) = some (e.1, v) := by
  rw [List.find?_map]
  have hmain : reg.find?
      ((fun x : String × String => x.2 == v) ∘
        (fun x => if x.1 == e.1 then (x.1, v) else x)) = some e := by
    rw [List.find?_eq_some] at hfind ⊢
    obtain ⟨hpe, as, bs, heq, has⟩ := hfind
    refine ⟨by simp [Function.comp], as, bs, heq, ?_⟩
    intro a ha
    have ha_mem : a ∈ reg := by
      rw [heq]; exact List.mem_append.mpr (Or.inl ha)
    have he_mem : e ∈ reg := by
      rw [heq]; exact List.mem_append.mpr (Or.inr (List.mem_cons_self e bs))
    have hane : ¬(a.1 == e.1) := by
      intro h1
      have hae : a = e :=
        List.inj_on_of_nodup_map hids ha_mem he_mem (by simpa using h1)
      have := has a ha
      rw [hae] at this
      simp [hpe] at this
    simp [Function.comp, hane]
    exact hall a ha_mem
  rw [hmain]
  simp

/-- After renaming the entity found under key `u` to a different key `v`, no
entity is registered under `u` any more. -/
lemma find?_map_rename_none (reg : Registry) (u v : String) (e : String × String)
    (huids : (reg.map Prod.snd).Nodup)
    (hfind : reg.find? (fun x => x.2 == u) = some e)
    (hvu : v ≠ u) :
    (reg.map (fun x => if x.1 == e.1 then (x.1, v) else x)).find?
      (fun x => x.2 == u) = none := by
  rw [List.find?_eq_none]
  intro y hy
  obtain ⟨x, hx_mem, rfl⟩ := List.mem_map.mp hy
  have he_mem : e ∈ reg := List.mem_of_find?_eq_some hfind
  have he2 : e.2 = u := by simpa using List.find?_some hfind
  by_cases h1 : x.1 == e.1
  · simp [h1, hvu]
  · have hx2 : x.2 ≠ u := by
      intro h2
      have hxe : x = e :=
        List.inj_on_of_nodup_map huids hx_mem he_mem (h2.trans he2.symm)
      rw [hxe] at h1
      simp at h1
    simp [h1, hx2]

/-- C7: identity migration (a) renames an entity registered under the old key
`f"{combine_hex(dev_id)}"` to the new key `generate_unique_id(dev_id,
channel)` when the new key is free — afterwards the old key is absent, so a
second call with the same arguments is a no-op by (b); (b) when the old key
is absent, migration leaves the registry unchanged; (c) when the new key
already exists, the rename is skipped (logged) and the registry is
unchanged. -/
theorem migrate_unique_id_spec (reg : Registry) (dev_id : List Nat)
    (channel : Nat)
    (hids : (reg.map Prod.fst).Nodup) (huids : (reg.map Prod.snd).Nodup) :
    (∀ entity_id : String,
      async_get_entity_id reg (toString (combine_hex dev_id)) = some entity_id →
      async_get_entity_id reg (generate_unique_id dev_id channel) = none →
      async_get_entity_id (_migrate_to_new_unique_id reg dev_id channel)
          (generate_unique_id dev_id channel) = some entity_id ∧
      async_get_entity_id (_migrate_to_new_unique_id reg dev_id channel)
          (toString (combine_hex dev_id)) = none) ∧
    (async_get_entity_id reg (toString (combine_hex dev_id)) = none →
      _migrate_to_new_unique_id reg dev_id channel = reg) ∧
    (∀ entity_id eid2 : String,
      async_get_entity_id reg (toString (combine_hex dev_id)) = some entity_id →
      async_get_entity_id reg (generate_unique_id dev_id channel) = some eid2 →
      _migrate_to_new_unique_id reg dev_id channel = reg) := by
  refine ⟨?_, migrate_of_old_absent reg dev_id channel, ?_⟩
  · intro entity_id hold hnew
    obtain ⟨e, hfind, he1⟩ : ∃ e,
        reg.find? (fun x => x.2 == toString (combine_hex dev_id)) = some e ∧
          e.1 = entity_id := by
      unfold async_get_entity_id at hold
      cases hf : reg.find? (fun x => x.2 == toString (combine_hex dev_id)) with
      | none => rw [hf] at hold; simp at hold
      | some e => rw [hf] at hold; simp at hold; exact ⟨e, rfl, hold⟩
    have hnone : reg.find?
        (fun x => x.2 == generate_unique_id dev_id channel) = none := by
      unfold async_get_entity_id at hnew
      cases hf : reg.find? (fun x => x.2 == generate_unique_id dev_id channel) with
      | none => rfl
      | some e' => rw [hf] at hnew; simp at hnew
    have hall : ∀ x ∈ reg, x.2 ≠ generate_unique_id dev_id channel := by
      intro x hx
      have := List.find?_eq_none.mp hnone x hx
      simpa using this
    have hany : reg.any
        (fun x => x.2 == generate_unique_id dev_id channel) = false := by
      rw [List.any_eq_false]
      intro x hx
      simpa using hall x hx
    have hmig := migrate_of_success reg dev_id channel entity_id hold hany
    subst he1
    constructor
    · rw [hmig]
      unfold async_get_entity_id
      rw [find?_map_rename reg _ _ e hids hfind hall]
      rfl
    · rw [hmig]
      unfold async_get_entity_id
      rw [find?_map_rename_none reg _ _ e huids hfind
        (generate_unique_id_ne_old dev_id channel)]
      rfl
  · intro entity_id eid2 hold hnew
    have hany : reg.any
        (fun x => x.2 == generate_unique_id dev_id channel) = true := by
      unfold async_get_entity_id at hnew
      cases hf : reg.find? (fun x => x.2 == generate_unique_id dev_id channel) with
      | none => rw [hf] at hnew; simp at hnew
      | some e' =>
        rw [List.any_eq_true]
        exact ⟨e', List.mem_of_find?_eq_some hf, by simpa using List.find?_some hf⟩
    exact migrate_of_conflict reg dev_id channel entity_id hold hany

/-- C7 witness: a registry holding one entity under the old key `"258"` for
device `[0x01, 0x02]`; migration to channel 0 moves it to key `"258-0"`. -/
theorem migrate_unique_id_spec_witness :
    async_get_entity_id
        (_migrate_to_new_unique_id [("switch.mysw", "258")] [0x01, 0x02] 0)
        (generate_unique_id [0x01, 0x02] 0) = some "switch.mysw" :=
  ((migrate_unique_id_spec [("switch.mysw", "258")] [0x01, 0x02] 0
      (by simp) (by simp)).1 "switch.mysw" (by decide) (by decide)).1

/-- C9: `combine_hex` is deterministic (equal byte sequences give equal
results) and order-sensitive: `combine_hex [0x01, 0x02] ≠
combine_hex [0x02, 0x01]`. -/
theorem combine_hex_deterministic_order_sensitive :
    (∀ xs ys : List Nat, xs = ys → combine_hex xs = combine_hex ys) ∧
    combine_hex [0x01, 0x02] ≠ combine_hex [0x02, 0x01] :=
  ⟨fun _ _ h => h ▸ rfl, by decide⟩

/-- C9 witness: the determinism clause applied at `[0x01, 0x02]`. -/
theorem combine_hex_deterministic_witness :
    combine_hex [0x01, 0x02] = combine_hex [0x01, 0x02] ∧
    combine_hex [0x01, 0x02] ≠ combine_hex [0x02, 0x01] :=
  ⟨combine_hex_deterministic_order_sensitive.1 [0x01, 0x02] [0x01, 0x02] rfl,
   combine_hex_deterministic_order_sensitive.2⟩

/-- C10: the unique-id key is not injective over device addresses: the
distinct addresses `[0x01, 0x02]` and `[0x00, 0x01, 0x02]` yield the same
unique id for every channel. -/
theorem generate_unique_id_not_injective :
    (∀ channel : Nat,
      generate_unique_id [0x01, 0x02] channel =
        generate_unique_id [0x00, 0x01, 0x02] channel) ∧
    ([0x01, 0x02] : List Nat) ≠ [0x00, 0x01, 0x02] :=
  ⟨fun _ => rfl, by decide⟩

end EnoceanCS
